import Mathlib

/-!
Shallow embedding of `src/proto_tcp.c` (TCP listener binding, foreign/transparent
bind, listener registration, and the tcp-request configuration parser).

Syscalls (socket, fcntl, setsockopt, bind, listen) are modelled by an
environment of outcomes supplied per call; the functions below translate the
C control flow faithfully over that environment.  Human-readable messages are
abstracted to tags (one per distinct message in the source); the snprintf
formatting itself is not modelled.
-/

namespace ProtoTcp

/-- Modelled from the spec: the `ERR_*` flag bits of `common/errors.h` (the
header is not part of the source slice).  The spec describes an ErrorCode as
independent flags with severity (`WARN`/`ALERT`) orthogonal to outcome
(`NONE`/`RETRYABLE`/`FATAL`) and control (`ABORT`); the bit values are the
standard ones of the project this file belongs to. -/
def ERR_NONE : Nat := 0x00

/-- Modelled from the spec: retryable-error flag bit. -/
def ERR_RETRYABLE : Nat := 0x01

/-- Modelled from the spec: fatal-error flag bit. -/
def ERR_FATAL : Nat := 0x02

/-- Modelled from the spec: abort-the-batch control flag bit. -/
def ERR_ABORT : Nat := 0x04

/-- Modelled from the spec: warning-message severity flag bit. -/
def ERR_WARN : Nat := 0x08

/-- Modelled from the spec: alert-message severity flag bit. -/
def ERR_ALERT : Nat := 0x10

/-- Modelled from the spec: `ERR_CODE` is the mask of the outcome and control
bits (`ERR_RETRYABLE | ERR_FATAL | ERR_ABORT`), excluding the orthogonal
message-severity bits. -/
def ERR_CODE : Nat := ERR_RETRYABLE ||| ERR_FATAL ||| ERR_ABORT

/-- Listener states used by `proto_tcp.c` (`LI_INIT`, `LI_ASSIGNED`,
`LI_LISTEN`). -/
inductive LiState where
  | LI_INIT
  | LI_ASSIGNED
  | LI_LISTEN
  deriving DecidableEq, Repr

/-- Listener option bit `LI_O_NOLINGER` (disable linger on this socket). -/
def LI_O_NOLINGER : Nat := 0x0001

/-- Listener option bit `LI_O_FOREIGN` (permit listening on foreign
addresses). -/
def LI_O_FOREIGN : Nat := 0x0002

/-- The fields of `struct listener` read or written by `tcp_bind_listener`
and the add-listener functions: state, option bits, backlog, maxconn and the
stored socket handle (`none` while unbound). -/
structure Listener where
  state : LiState
  options : Nat
  backlog : Nat
  maxconn : Nat
  fd : Option Nat
  deriving DecidableEq, Repr

/-- Message tags, one per distinct `msg` string assigned inside
`tcp_bind_listener`. -/
inductive BindMsg where
  | cannotCreateSocket        -- "cannot create listening socket"
  | notEnoughFreeSockets      -- "not enough free sockets (raise the -n parameter)"
  | cannotMakeNonBlocking     -- "cannot make socket non-blocking"
  | cannotDoReuseaddr         -- "cannot do so_reuseaddr"
  | cannotMakeTransparent     -- "cannot make listening socket transparent"
  | cannotBindSocket          -- "cannot bind socket"
  | cannotListenSocket        -- "cannot listen to socket"
  deriving DecidableEq, Repr

/-- Outcomes of the syscalls performed by one `tcp_bind_listener` run:
`socket_fd` is the handle returned by `socket()` (`none` = failure), the
remaining booleans are the success of each subsequent syscall in source
order.  `maxsock` is `global.maxsock`.  The `linger_ok` and `reuseport_ok`
outcomes exist so that their syscalls can be made to fail: the source never
inspects those two return values. -/
structure BindEnv where
  socket_fd : Option Nat
  maxsock : Nat
  fcntl_ok : Bool
  nodelay_ok : Bool
  reuseaddr_ok : Bool
  linger_ok : Bool
  reuseport_ok : Bool
  transparent_ok : Bool
  freebind_ok : Bool
  bind_ok : Bool
  listen_ok : Bool
  deriving DecidableEq, Repr

/-- Observable outcome of `tcp_bind_listener`: the returned error code, the
final `msg` variable (what would be copied into a non-empty caller buffer),
the listener after the call, and instrumentation of resource effects — the
handle `socket()` produced, the handles passed to `close()` in order, and
whether `fd_insert` registration with the event layer happened. -/
structure BindResult where
  err : Nat
  msg : Option BindMsg
  listener : Listener
  openedFd : Option Nat
  closedFds : List Nat
  fdInserted : Bool
  deriving DecidableEq, Repr

/-- Shallow embedding of `tcp_bind_listener` (src/proto_tcp.c:192-284), with
both optional platform sections (`SO_REUSEPORT`, `CONFIG_HAP_LINUX_TPROXY`)
compiled in.  Each early `goto tcp_close_return` becomes a result recording
`closedFds = [fd]`; `goto tcp_return` after the success block keeps the
handle open.  The zeroing of the caller's message buffer before the state
guard is part of the message-return protocol, not modelled separately. -/
def tcp_bind_listener (env : BindEnv) (l : Listener) : BindResult :=
  if l.state ≠ LiState.LI_ASSIGNED then
    -- "already bound": return ERR_NONE, touch nothing
    { err := ERR_NONE, msg := none, listener := l, openedFd := none,
      closedFds := [], fdInserted := false }
  else
    match env.socket_fd with
    | none =>
      { err := ERR_RETRYABLE ||| ERR_ALERT, msg := some BindMsg.cannotCreateSocket,
        listener := l, openedFd := none, closedFds := [], fdInserted := false }
    | some fd =>
      if env.maxsock ≤ fd then
        -- fd >= global.maxsock
        { err := ERR_FATAL ||| ERR_ABORT ||| ERR_ALERT,
          msg := some BindMsg.notEnoughFreeSockets, listener := l,
          openedFd := some fd, closedFds := [fd], fdInserted := false }
      else if ¬ env.fcntl_ok ∨ ¬ env.nodelay_ok then
        { err := ERR_FATAL ||| ERR_ALERT, msg := some BindMsg.cannotMakeNonBlocking,
          listener := l, openedFd := some fd, closedFds := [fd], fdInserted := false }
      else
        -- SO_REUSEADDR: not fatal but reported
        let err0 := if ¬ env.reuseaddr_ok then ERR_ALERT else ERR_NONE
        let msg0 := if ¬ env.reuseaddr_ok then some BindMsg.cannotDoReuseaddr else none
        -- SO_LINGER (when LI_O_NOLINGER) and SO_REUSEPORT: return values unchecked
        -- CONFIG_HAP_LINUX_TPROXY: transparent option, alert-only
        let transpFails := l.options &&& LI_O_FOREIGN ≠ 0 ∧
          ¬ env.transparent_ok ∧ ¬ env.freebind_ok
        let err1 := if transpFails then err0 ||| ERR_ALERT else err0
        let msg1 := if transpFails then some BindMsg.cannotMakeTransparent else msg0
        if ¬ env.bind_ok then
          { err := err1 ||| ERR_RETRYABLE ||| ERR_ALERT,
            msg := some BindMsg.cannotBindSocket, listener := l,
            openedFd := some fd, closedFds := [fd], fdInserted := false }
        else if ¬ env.listen_ok then
          { err := err1 ||| ERR_RETRYABLE ||| ERR_ALERT,
            msg := some BindMsg.cannotListenSocket, listener := l,
            openedFd := some fd, closedFds := [fd], fdInserted := false }
        else
          -- the socket is ready: store the handle, advance the state, register
          { err := err1, msg := msg1,
            listener := { l with fd := some fd, state := LiState.LI_LISTEN },
            openedFd := some fd, closedFds := [], fdInserted := true }

/-- Shallow embedding of the loop body of `tcp_bind_listeners`
(src/proto_tcp.c:292-304) over a list of listeners, each paired with the
syscall outcomes its bind attempt would see.  Returns the accumulated error
code and the number of listeners attempted (the C loop breaks when
`(err & ERR_CODE) == ERR_ABORT`). -/
def tcp_bind_listeners_from (err : Nat) :
    List (BindEnv × Listener) → Nat × Nat
  | [] => (err, 0)
  | x :: rest =>
    let err1 := err ||| (tcp_bind_listener x.1 x.2).err
    if err1 &&& ERR_CODE = ERR_ABORT then
      (err1, 1)
    else
      let r := tcp_bind_listeners_from err1 rest
      (r.1, r.2 + 1)

/-- `tcp_bind_listeners` started from `ERR_NONE`, as in the source. -/
def tcp_bind_listeners (xs : List (BindEnv × Listener)) : Nat × Nat :=
  tcp_bind_listeners_from ERR_NONE xs

/-- The two fields of `struct sockaddr_in` that `tcpv4_bind_socket` reads or
writes (`sin_addr`, `sin_port`), as plain numbers. -/
structure SockAddrIn where
  sin_addr : Nat
  sin_port : Nat
  deriving DecidableEq, Repr

/-- Syscall outcomes for one `tcpv4_bind_socket` run: success of the
`IP_TRANSPARENT` and `IP_FREEBIND` setsockopts, of `bind` as a function of
the address bound, and of the two cttproxy `IP_TPROXY` setsockopts.
`reuseaddr_ok` exists so that the `SO_REUSEADDR` call can fail: the source
ignores its return value. -/
structure ForeignEnv where
  transparent_ok : Bool
  freebind_ok : Bool
  reuseaddr_ok : Bool
  bind_ok : SockAddrIn → Bool
  cttproxy1_ok : Bool
  cttproxy2_ok : Bool

/-- Observable outcome of `tcpv4_bind_socket`: the returned code (`none`
models the undefined behaviour of dereferencing a NULL `remote` while a host
or port bit of `flags` is set), the value of the static `ip_transp_working`
flag after the call, and whether the direct transparent-bind strategy (the
stage-one setsockopts) was attempted during the call. -/
structure ForeignOut where
  code : Option Nat
  transp_working : Bool
  triedTransp : Bool
  deriving DecidableEq, Repr

/-- The foreign bind address built at src/proto_tcp.c:131-137: a zeroed
`sockaddr_in` onto which the remote host part (when bit 0 of `flags` is set)
and the remote port part (when bit 1 is set) are merged. -/
def mkForeignAddr (flags : Nat) (remote : SockAddrIn) : SockAddrIn :=
  { sin_addr := if flags &&& 1 ≠ 0 then remote.sin_addr else 0,
    sin_port := if flags &&& 2 ≠ 0 then remote.sin_port else 0 }

/-- Initial value of the static `ip_transp_working` flag
(src/proto_tcp.c:122: `static int ip_transp_working = 1`). -/
def ip_transp_working_init : Bool := true

/-- Shallow embedding of `tcpv4_bind_socket` (src/proto_tcp.c:115-178) with
both optional strategy sections (`CONFIG_HAP_LINUX_TPROXY` and
`CONFIG_HAP_CTTPROXY`) compiled in.  The static `ip_transp_working` flag is
passed in explicitly and returned updated. -/
def tcpv4_bind_socket (env : ForeignEnv) (ip_transp_working : Bool)
    (flags : Nat) (loc : SockAddrIn) (remote : Option SockAddrIn) : ForeignOut :=
  -- stage 1: direct transparent bind (IP_TRANSPARENT, else IP_FREEBIND)
  let tried : Bool := (flags != 0) && ip_transp_working
  let foreign_ok0 : Bool := tried && (env.transparent_ok || env.freebind_ok)
  let working1 : Bool :=
    if tried && !env.transparent_ok && !env.freebind_ok then false
    else ip_transp_working
  -- after SO_REUSEADDR (return value unread): the chosen bind and the fallback
  let proceed : SockAddrIn → ForeignOut := fun bind_addr =>
    if foreign_ok0 then
      if ¬ env.bind_ok bind_addr then
        { code := some 2, transp_working := working1, triedTransp := tried }
      else
        -- flags ≠ 0 here, foreign_ok stays set: final return 0
        { code := some 0, transp_working := working1, triedTransp := tried }
    else
      if ¬ env.bind_ok loc then
        { code := some 1, transp_working := working1, triedTransp := tried }
      else if env.cttproxy1_ok && env.cttproxy2_ok then
        { code := some 0, transp_working := working1, triedTransp := tried }
      else
        { code := some 2, transp_working := working1, triedTransp := tried }
  if flags = 0 then
    -- no foreign binding requested: plain bind to <local>, early return
    if ¬ env.bind_ok loc then
      { code := some 1, transp_working := working1, triedTransp := tried }
    else
      { code := some 0, transp_working := working1, triedTransp := tried }
  else
    match remote with
    | none =>
      if flags &&& 3 = 0 then proceed (mkForeignAddr flags { sin_addr := 0, sin_port := 0 })
      else { code := none, transp_working := working1, triedTransp := tried }
    | some r => proceed (mkForeignAddr flags r)

/-- The reference behaviour named by the spec for `mode = 0`: a plain bind of
the socket to the local address, returning 0 on success and the local-bind
failure code 1 on failure.  (Spec wording, for comparison with
`tcpv4_bind_socket`.) -/
def plainLocalBind (env : ForeignEnv) (loc : SockAddrIn) : Nat :=
  if env.bind_ok loc then 0 else 1

/-- One call to `tcpv4_bind_socket` in a process-lifetime trace. -/
structure ForeignCall where
  env : ForeignEnv
  flags : Nat
  loc : SockAddrIn
  remote : Option SockAddrIn

/-- Runs a sequence of `tcpv4_bind_socket` calls, threading the static
`ip_transp_working` flag; returns the final flag and the per-call outcomes in
order. -/
def runForeignCalls (w : Bool) : List ForeignCall → Bool × List ForeignOut
  | [] => (w, [])
  | c :: cs =>
    let o := tcpv4_bind_socket c.env w c.flags c.loc c.remote
    let r := runForeignCalls o.transp_working cs
    (r.1, o :: r.2)

/-- The static `ip_transp_working` flag after a sequence of calls, starting
from `w`. -/
def transpFlagAfter (w : Bool) (cs : List ForeignCall) : Bool :=
  (runForeignCalls w cs).1

/-- Address families of the two protocol registries in `proto_tcp.c`. -/
inductive Fam where
  | v4
  | v6
  deriving DecidableEq, Repr

/-- Joint state of the listener store and the two family registries:
per-listener state, the family each listener's `proto` pointer names
(`none` = unset), each family's insertion-ordered listener list
(`proto_tcpv4.listeners` / `proto_tcpv6.listeners`, listeners named by
identifier) and its `nb_listeners` count. -/
structure RegState where
  liState : Nat → LiState
  protoOf : Nat → Option Fam
  v4_listeners : List Nat
  v4_nb : Nat
  v6_listeners : List Nat
  v6_nb : Nat

/-- Shallow embedding of `tcpv4_add_listener` (src/proto_tcp.c:310-318):
no-op unless the listener is in `LI_INIT` state; otherwise set it to
`LI_ASSIGNED`, point its `proto` at the tcpv4 registry, append it to the
registry's list and bump the count. -/
def tcpv4_add_listener (s : RegState) (id : Nat) : RegState :=
  if s.liState id ≠ LiState.LI_INIT then s
  else
    { s with
      liState := fun j => if j = id then LiState.LI_ASSIGNED else s.liState j,
      protoOf := fun j => if j = id then some Fam.v4 else s.protoOf j,
      v4_listeners := s.v4_listeners ++ [id],
      v4_nb := s.v4_nb + 1 }

/-- Shallow embedding of `tcpv6_add_listener` (src/proto_tcp.c:324-332). -/
def tcpv6_add_listener (s : RegState) (id : Nat) : RegState :=
  if s.liState id ≠ LiState.LI_INIT then s
  else
    { s with
      liState := fun j => if j = id then LiState.LI_ASSIGNED else s.liState j,
      protoOf := fun j => if j = id then some Fam.v6 else s.protoOf j,
      v6_listeners := s.v6_listeners ++ [id],
      v6_nb := s.v6_nb + 1 }

/-- Dispatch on the family (the caller picks `tcpv4_add_listener` or
`tcpv6_add_listener`). -/
def add_listener : Fam → RegState → Nat → RegState
  | Fam.v4 => tcpv4_add_listener
  | Fam.v6 => tcpv6_add_listener

/-- A sequence of add-listener calls applied in order. -/
def runAdds (s : RegState) : List (Fam × Nat) → RegState
  | [] => s
  | c :: cs => runAdds (add_listener c.1 s c.2) cs

/-- ACL condition combinators (`ACL_COND_NONE` / `ACL_COND_IF` /
`ACL_COND_UNLESS`). -/
inductive CondPol where
  | ACL_COND_NONE
  | ACL_COND_IF
  | ACL_COND_UNLESS
  deriving DecidableEq, Repr

/-- Rule actions (`TCP_ACT_ACCEPT` / `TCP_ACT_REJECT`). -/
inductive TcpAct where
  | TCP_ACT_ACCEPT
  | TCP_ACT_REJECT
  deriving DecidableEq, Repr

/-- A `struct tcp_rule` as built by the parser: an optional compiled
condition (an opaque handle, `none` when the rule is unconditional) and the
action. -/
structure TcpRule where
  cond : Option Nat
  action : TcpAct
  deriving DecidableEq, Repr

/-- The proxy fields read or written by `tcp_parse_tcp_req`: the frontend
capability bit (`cap & PR_CAP_FE`), the inspect delay (`0` = unset) and the
ordered rule list `tcp_req.inspect_rules`. -/
structure Proxy where
  cap_fe : Bool
  inspect_delay : Nat
  inspect_rules : List TcpRule
  deriving DecidableEq, Repr

/-- Message tags for the diagnostics `tcp_parse_tcp_req` writes into the
caller's bounded buffer, one per `snprintf` site. -/
inductive ParseMsg where
  | missingArgument           -- "missing argument for ..."
  | notAllowedInDefaults      -- "... is not allowed in defaults sections"
  | ignoredNoFrontendCap      -- "... will be ignored because ... has no frontend capability"
  | expectsPositiveDelay      -- "... expects a positive delay in milliseconds ..."
  | ignoredAlreadyDefined     -- "ignoring ... (was already defined) ..."
  | expectsAcceptOrReject     -- "... expects accept or reject ..."
  | errorParsingCondition     -- "Error detected ... while parsing ... condition"
  | unknownArgument           -- "unknown argument ... after ..."
  deriving DecidableEq, Repr

/-- The external collaborators of the parser.  `parse_time_err` — modelled
from the spec: the external duration parser; `some val` is success (the C
function returns NULL and stores `val`), `none` is a syntax error (the C
function returns the offending character).  `parse_acl_cond` — modelled from
the spec: the external ACL condition compiler, given the tokens after the
combinator and the combinator itself; `none` is a parse failure. -/
structure ParseEnv where
  parse_time_err : String → Option Nat
  parse_acl_cond : List String → CondPol → Option Nat

/-- The C argument vector convention: a missing token reads as the empty
string. -/
def arg (args : List String) (n : Nat) : String := args.getD n ""

/-- Shallow embedding of `tcp_parse_tcp_req` (src/proto_tcp.c:337-434).
`curpx_is_defpx` models the pointer comparison `curpx == defpx`.  Returns
the tri-state code, the proxy after the call, and the diagnostic written
into the caller's buffer (`none` when no `snprintf` ran). -/
def tcp_parse_tcp_req (env : ParseEnv) (args : List String)
    (curpx_is_defpx : Bool) (px : Proxy) : Int × Proxy × Option ParseMsg :=
  if arg args 1 = "" then
    (-1, px, some ParseMsg.missingArgument)
  else if arg args 1 = "inspect-delay" then
    if curpx_is_defpx then
      (-1, px, some ParseMsg.notAllowedInDefaults)
    else if ¬ px.cap_fe then
      (1, px, some ParseMsg.ignoredNoFrontendCap)
    else if arg args 2 = "" then
      (-1, px, some ParseMsg.expectsPositiveDelay)
    else
      match env.parse_time_err (arg args 2) with
      | none => (-1, px, some ParseMsg.expectsPositiveDelay)
      | some val =>
        if px.inspect_delay ≠ 0 then
          (1, px, some ParseMsg.ignoredAlreadyDefined)
        else
          (0, { px with inspect_delay := val }, none)
  else if arg args 1 = "content" then
    if curpx_is_defpx then
      (-1, px, some ParseMsg.notAllowedInDefaults)
    else
      let actionOpt : Option TcpAct :=
        if arg args 2 = "accept" then some TcpAct.TCP_ACT_ACCEPT
        else if arg args 2 = "reject" then some TcpAct.TCP_ACT_REJECT
        else none
      match actionOpt with
      | none => (-1, px, some ParseMsg.expectsAcceptOrReject)
      | some action =>
        let pol : CondPol :=
          if arg args 3 = "if" then CondPol.ACL_COND_IF
          else if arg args 3 = "unless" then CondPol.ACL_COND_UNLESS
          else CondPol.ACL_COND_NONE
        -- "we consider if TRUE when there is no condition"
        if pol = CondPol.ACL_COND_NONE then
          (0, { px with inspect_rules :=
                  px.inspect_rules ++ [{ cond := none, action := action }] }, none)
        else
          match env.parse_acl_cond (args.drop 4) pol with
          | none => (-1, px, some ParseMsg.errorParsingCondition)
          | some c =>
            (0, { px with inspect_rules :=
                    px.inspect_rules ++ [{ cond := some c, action := action }] }, none)
  else
    (-1, px, some ParseMsg.unknownArgument)

/-! ### Concrete fixtures used by witnesses and counterexamples -/

/-- A syscall environment in which everything succeeds (`socket()` yields
handle 5, well below `maxsock = 100`). -/
def envOk : BindEnv :=
  { socket_fd := some 5, maxsock := 100, fcntl_ok := true, nodelay_ok := true,
    reuseaddr_ok := true, linger_ok := true, reuseport_ok := true,
    transparent_ok := true, freebind_ok := true, bind_ok := true,
    listen_ok := true }

/-- A listener in `LI_ASSIGNED` state with no options. -/
def lAssigned : Listener :=
  { state := LiState.LI_ASSIGNED, options := 0, backlog := 10, maxconn := 50,
    fd := none }

/-- A listener already in `LI_LISTEN` state. -/
def lListening : Listener :=
  { state := LiState.LI_LISTEN, options := LI_O_NOLINGER, backlog := 10,
    maxconn := 50, fd := some 7 }

/-- An all-success environment whose `SO_LINGER` setsockopt fails. -/
def envLingerFail : BindEnv := { envOk with linger_ok := false }

/-- An `LI_ASSIGNED` listener with the no-linger option set. -/
def lNolinger : Listener := { lAssigned with options := LI_O_NOLINGER }

/-- An environment whose `socket()` call yields handle 10 while
`global.maxsock` is 5, producing the `ERR_FATAL|ERR_ABORT|ERR_ALERT`
failure. -/
def envAbort : BindEnv := { envOk with socket_fd := some 10, maxsock := 5 }

/-- A platform where the transparent capability and the cttproxy fallback
are both unavailable, but plain binds succeed. -/
def envForeignFail : ForeignEnv :=
  { transparent_ok := false, freebind_ok := false, reuseaddr_ok := true,
    bind_ok := fun _ => true, cttproxy1_ok := false, cttproxy2_ok := false }

/-- A local address fixture. -/
def addrLoc : SockAddrIn := { sin_addr := 1, sin_port := 80 }

/-- A remote address fixture. -/
def addrRem : SockAddrIn := { sin_addr := 2, sin_port := 99 }

/-- The insertion-ordered listener collection of a family. -/
def famList : Fam → RegState → List Nat
  | Fam.v4, s => s.v4_listeners
  | Fam.v6, s => s.v6_listeners

/-- The live listener count (`nb_listeners`) of a family. -/
def famNb : Fam → RegState → Nat
  | Fam.v4, s => s.v4_nb
  | Fam.v6, s => s.v6_nb

/-- The other family. -/
def otherFam : Fam → Fam
  | Fam.v4 => Fam.v6
  | Fam.v6 => Fam.v4

/-- The registry invariant: every listener occurs at most once across the
two registries together, and every registered listener has left the
`LI_INIT` state. -/
def RegInv (s : RegState) : Prop :=
  (∀ id, (s.v4_listeners ++ s.v6_listeners).count id ≤ 1) ∧
  (∀ id, id ∈ s.v4_listeners ++ s.v6_listeners →
    s.liState id ≠ LiState.LI_INIT)

/-- An empty registry state with every listener still in `LI_INIT`. -/
def regEmpty : RegState :=
  { liState := fun _ => LiState.LI_INIT, protoOf := fun _ => none,
    v4_listeners := [], v4_nb := 0, v6_listeners := [], v6_nb := 0 }

/-- The combinator selected by the token after the action (src lines
409-412). -/
def polOf (s : String) : CondPol :=
  if s = "if" then CondPol.ACL_COND_IF
  else if s = "unless" then CondPol.ACL_COND_UNLESS
  else CondPol.ACL_COND_NONE

/-- The fatal configuration errors of `tcp_parse_tcp_req`: missing
sub-keyword, `inspect-delay`/`content` in a defaults section, bad or missing
duration (in a frontend-capable proxy), an action other than accept/reject,
a failed condition parse, or an unknown sub-keyword. -/
def fatalCause (env : ParseEnv) (args : List String) (d : Bool)
    (px : Proxy) : Prop :=
  arg args 1 = "" ∨
  (arg args 1 = "inspect-delay" ∧ d = true) ∨
  (arg args 1 = "inspect-delay" ∧ d = false ∧ px.cap_fe = true ∧
    (arg args 2 = "" ∨ env.parse_time_err (arg args 2) = none)) ∨
  (arg args 1 = "content" ∧ d = true) ∨
  (arg args 1 = "content" ∧ d = false ∧
    arg args 2 ≠ "accept" ∧ arg args 2 ≠ "reject") ∨
  (arg args 1 = "content" ∧ d = false ∧
    (arg args 2 = "accept" ∨ arg args 2 = "reject") ∧
    (arg args 3 = "if" ∨ arg args 3 = "unless") ∧
    env.parse_acl_cond (args.drop 4) (polOf (arg args 3)) = none) ∨
  (arg args 1 ≠ "" ∧ arg args 1 ≠ "inspect-delay" ∧ arg args 1 ≠ "content")

/-- The non-fatal warnings of `tcp_parse_tcp_req`: `inspect-delay` in a
block without the frontend capability, or a duplicate `inspect-delay`. -/
def warnCause (env : ParseEnv) (args : List String) (d : Bool)
    (px : Proxy) : Prop :=
  (arg args 1 = "inspect-delay" ∧ d = false ∧ px.cap_fe = false) ∨
  (arg args 1 = "inspect-delay" ∧ d = false ∧ px.cap_fe = true ∧
    arg args 2 ≠ "" ∧ (env.parse_time_err (arg args 2)).isSome = true ∧
    px.inspect_delay ≠ 0)

/-- A parser environment accepting only the duration token `5s`. -/
def env0 : ParseEnv :=
  { parse_time_err := fun s => if s = "5s" then some 5000 else none,
    parse_acl_cond := fun _ _ => none }

/-- A frontend-capable proxy with no delay and no rules yet. -/
def px0 : Proxy := { cap_fe := true, inspect_delay := 0, inspect_rules := [] }

/-- An `inspect-delay` directive line. -/
def argsDelay : List String := ["tcp-request", "inspect-delay", "5s"]

/-- A content rule line with trailing junk instead of a combinator. -/
def argsContent : List String :=
  ["tcp-request", "content", "accept", "foo", "bar"]

/-! ### Theorems for the claims -/

/-- C3: for every listener whose state is not `LI_ASSIGNED` (in particular
one already in `LI_LISTEN` state) and every combination of listener options
and syscall outcomes, `tcp_bind_listener` returns `ERR_NONE`, produces no
message, leaves the listener untouched, opens no socket, closes nothing and
registers nothing with the event layer. -/
theorem tcp_bind_listener_not_assigned_noop (env : BindEnv) (l : Listener)
    (h : l.state ≠ LiState.LI_ASSIGNED) :
    tcp_bind_listener env l =
      { err := ERR_NONE, msg := none, listener := l, openedFd := none,
        closedFds := [], fdInserted := false } := by
  simp [tcp_bind_listener, h]

/-- Witness for C3: a listener already in `LI_LISTEN` state, bound under the
all-success environment, is left alone with `ERR_NONE`. -/
theorem tcp_bind_listener_not_assigned_noop_witness :
    lListening.state ≠ LiState.LI_ASSIGNED ∧
    tcp_bind_listener envOk lListening =
      { err := ERR_NONE, msg := none, listener := lListening, openedFd := none,
        closedFds := [], fdInserted := false } :=
  ⟨by decide, tcp_bind_listener_not_assigned_noop envOk lListening (by decide)⟩

/-- C2: whenever `tcp_bind_listener` runs on an `LI_ASSIGNED` listener and
`socket()` hands it a handle, either the call returns a failure code (a set
bit inside `ERR_CODE`) and then the handle was closed exactly once, the
listener is untouched and nothing was registered, or the call returns no
failure code and then the handle is stored on the listener, the state is
advanced to `LI_LISTEN`, the handle was registered and never closed. -/
theorem tcp_bind_listener_no_leak (env : BindEnv) (l : Listener) (fd : Nat)
    (hs : l.state = LiState.LI_ASSIGNED) (hf : env.socket_fd = some fd) :
    ((tcp_bind_listener env l).err &&& ERR_CODE ≠ 0 →
      (tcp_bind_listener env l).closedFds = [fd] ∧
      (tcp_bind_listener env l).listener = l ∧
      (tcp_bind_listener env l).fdInserted = false) ∧
    ((tcp_bind_listener env l).err &&& ERR_CODE = 0 →
      (tcp_bind_listener env l).closedFds = [] ∧
      (tcp_bind_listener env l).listener.fd = some fd ∧
      (tcp_bind_listener env l).listener.state = LiState.LI_LISTEN ∧
      (tcp_bind_listener env l).fdInserted = true) := by
  simp only [tcp_bind_listener, hs, hf, ne_eq, not_true_eq_false, if_false,
    ite_false, reduceIte]
  split_ifs <;> simp_all <;> decide

/-- Witness for C2: under an environment where `bind()` fails, the failure
code is returned and handle 5 is closed exactly once. -/
theorem tcp_bind_listener_no_leak_witness :
    lAssigned.state = LiState.LI_ASSIGNED ∧
    ({ envOk with bind_ok := false } : BindEnv).socket_fd = some 5 ∧
    (((tcp_bind_listener { envOk with bind_ok := false } lAssigned).err &&& ERR_CODE ≠ 0 →
      (tcp_bind_listener { envOk with bind_ok := false } lAssigned).closedFds = [5] ∧
      (tcp_bind_listener { envOk with bind_ok := false } lAssigned).listener = lAssigned ∧
      (tcp_bind_listener { envOk with bind_ok := false } lAssigned).fdInserted = false) ∧
    ((tcp_bind_listener { envOk with bind_ok := false } lAssigned).err &&& ERR_CODE = 0 →
      (tcp_bind_listener { envOk with bind_ok := false } lAssigned).closedFds = [] ∧
      (tcp_bind_listener { envOk with bind_ok := false } lAssigned).listener.fd = some 5 ∧
      (tcp_bind_listener { envOk with bind_ok := false } lAssigned).listener.state = LiState.LI_LISTEN ∧
      (tcp_bind_listener { envOk with bind_ok := false } lAssigned).fdInserted = true)) :=
  ⟨rfl, rfl,
    tcp_bind_listener_no_leak { envOk with bind_ok := false } lAssigned 5 rfl rfl⟩

/-- C5: a call with `flags = 0` behaves exactly as a plain bind to the local
address — it returns 0 on success and the local-bind failure code 1 on
failure — regardless of the remote-address argument (including a NULL
remote), leaves the transparent-capability flag untouched and never attempts
the transparent-bind strategy. -/
theorem tcpv4_bind_socket_flags_zero (env : ForeignEnv) (w : Bool)
    (loc : SockAddrIn) (remote : Option SockAddrIn) :
    tcpv4_bind_socket env w 0 loc remote =
      { code := some (plainLocalBind env loc), transp_working := w,
        triedTransp := false } := by
  cases h : env.bind_ok loc <;>
    simp [tcpv4_bind_socket, plainLocalBind, h]

/-- C4 (as amended): the failure classification of `tcp_bind_listener` on an
`LI_ASSIGNED` listener.  Socket-creation failure yields
`ERR_RETRYABLE|ERR_ALERT`; a handle at or above `maxsock` yields
`ERR_FATAL|ERR_ABORT|ERR_ALERT`; failure of the non-blocking setup or of
`TCP_NODELAY` yields `ERR_FATAL|ERR_ALERT`; a failing `SO_REUSEADDR` only
ORs `ERR_ALERT` into whatever the rest of the run returns, changing no other
observable; failures of the linger-disable and port-reuse options are
silently ignored (the run is identical whatever their outcome); `bind()` and
`listen()` failures each yield exactly `ERR_RETRYABLE|ERR_ALERT`. -/
theorem tcp_bind_listener_classification (env : BindEnv) (l : Listener)
    (hs : l.state = LiState.LI_ASSIGNED) :
    (env.socket_fd = none →
      (tcp_bind_listener env l).err = (ERR_RETRYABLE ||| ERR_ALERT)) ∧
    (∀ fd, env.socket_fd = some fd → env.maxsock ≤ fd →
      (tcp_bind_listener env l).err = (ERR_FATAL ||| ERR_ABORT ||| ERR_ALERT)) ∧
    (∀ fd, env.socket_fd = some fd → fd < env.maxsock →
      (¬ env.fcntl_ok ∨ ¬ env.nodelay_ok) →
      (tcp_bind_listener env l).err = (ERR_FATAL ||| ERR_ALERT)) ∧
    ((tcp_bind_listener { env with reuseaddr_ok := false } l).err =
        ((tcp_bind_listener { env with reuseaddr_ok := true } l).err ||| ERR_ALERT) ∨
      (tcp_bind_listener { env with reuseaddr_ok := false } l).err =
        (tcp_bind_listener { env with reuseaddr_ok := true } l).err) ∧
    (∀ b1 b2,
      tcp_bind_listener { env with linger_ok := b1, reuseport_ok := b2 } l =
        tcp_bind_listener env l) ∧
    (∀ fd, env.socket_fd = some fd → fd < env.maxsock →
      env.fcntl_ok → env.nodelay_ok → ¬ env.bind_ok →
      (tcp_bind_listener env l).err = (ERR_RETRYABLE ||| ERR_ALERT)) ∧
    (∀ fd, env.socket_fd = some fd → fd < env.maxsock →
      env.fcntl_ok → env.nodelay_ok → env.bind_ok → ¬ env.listen_ok →
      (tcp_bind_listener env l).err = (ERR_RETRYABLE ||| ERR_ALERT)) := by
  refine ⟨?_, ?_, ?_, ?_, ?_, ?_, ?_⟩
  · intro h0
    simp [tcp_bind_listener, hs, h0]
  · rintro fd hf hle
    simp [tcp_bind_listener, hs, hf, hle]
  · rintro fd hf hlt hfail
    rcases hfail with h | h <;>
      simp [tcp_bind_listener, hs, hf, Nat.not_le.mpr hlt, h]
  · rcases hsf : env.socket_fd with _ | fd
    · right; simp [tcp_bind_listener, hs, hsf]
    · by_cases hm : env.maxsock ≤ fd
      · right; simp [tcp_bind_listener, hs, hsf, hm]
      · by_cases h1 : env.fcntl_ok
        · by_cases h2 : env.nodelay_ok
          · left
            by_cases htr : (l.options &&& LI_O_FOREIGN ≠ 0 ∧
                env.transparent_ok = false ∧ env.freebind_ok = false) <;>
              by_cases hb : env.bind_ok <;>
              by_cases hl : env.listen_ok <;>
              simp [tcp_bind_listener, hs, hsf, hm, h1, h2, htr, hb, hl] <;>
              decide
          · right; simp [tcp_bind_listener, hs, hsf, hm, h1, h2]
        · right; simp [tcp_bind_listener, hs, hsf, hm, h1]
  · intro b1 b2
    cases env
    rfl
  · rintro fd hf hlt h1 h2 hb
    by_cases hra : env.reuseaddr_ok <;>
      by_cases htr : (l.options &&& LI_O_FOREIGN ≠ 0 ∧
          env.transparent_ok = false ∧ env.freebind_ok = false) <;>
      simp [tcp_bind_listener, hs, hf, Nat.not_le.mpr hlt, h1, h2, hb, hra, htr] <;>
      decide
  · rintro fd hf hlt h1 h2 hb hl
    by_cases hra : env.reuseaddr_ok <;>
      by_cases htr : (l.options &&& LI_O_FOREIGN ≠ 0 ∧
          env.transparent_ok = false ∧ env.freebind_ok = false) <;>
      simp [tcp_bind_listener, hs, hf, Nat.not_le.mpr hlt, h1, h2, hb, hl, hra, htr] <;>
      decide

/-- Witness for C4: with every syscall succeeding except `bind()`, the
classification theorem yields exactly `ERR_RETRYABLE | ERR_ALERT`. -/
theorem tcp_bind_listener_classification_witness :
    (tcp_bind_listener { envOk with bind_ok := false } lAssigned).err =
      (ERR_RETRYABLE ||| ERR_ALERT) :=
  (tcp_bind_listener_classification { envOk with bind_ok := false } lAssigned
      rfl).2.2.2.2.2.1 5 rfl (by decide) rfl rfl (by decide)

/-- Counterexample for C4 as originally stated: a listener with the
no-linger option whose `SO_LINGER` setsockopt fails still binds all the way
to `LI_LISTEN` and the returned code is `ERR_NONE` — no `ERR_ALERT` is
raised, because the source never checks that setsockopt's return value, so
the claim that best-effort linger failures yield `ALERT` is false. -/
theorem tcp_bind_listener_linger_silent_counterexample :
    envLingerFail.linger_ok = false ∧
    lNolinger.options &&& LI_O_NOLINGER ≠ 0 ∧
    (tcp_bind_listener envLingerFail lNolinger).listener.state = LiState.LI_LISTEN ∧
    (tcp_bind_listener envLingerFail lNolinger).err = ERR_NONE ∧
    (tcp_bind_listener envLingerFail lNolinger).err &&& ERR_ALERT = 0 := by
  decide

/-- OR-accumulation preserves "the abort bit implies the fatal bit". -/
lemma abort_imp_fatal_or (a b : Nat)
    (ha : a.testBit 2 = true → a.testBit 1 = true)
    (hb : b.testBit 2 = true → b.testBit 1 = true) :
    (a ||| b).testBit 2 = true → (a ||| b).testBit 1 = true := by
  simp only [Nat.testBit_lor]
  cases h2a : a.testBit 2 <;> cases h2b : b.testBit 2 <;> simp_all

/-- Every code `tcp_bind_listener` can return is one of five values — and in
particular `ERR_ABORT` is only ever set together with `ERR_FATAL`. -/
lemma tcp_bind_listener_err_mem (env : BindEnv) (l : Listener) :
    (tcp_bind_listener env l).err ∈
      ([ERR_NONE, ERR_ALERT, ERR_RETRYABLE ||| ERR_ALERT,
        ERR_FATAL ||| ERR_ALERT,
        ERR_FATAL ||| ERR_ABORT ||| ERR_ALERT] : List Nat) := by
  by_cases hs : l.state = LiState.LI_ASSIGNED
  · rcases hsf : env.socket_fd with _ | fd
    · simp [tcp_bind_listener, hs, hsf]
    · by_cases hm : env.maxsock ≤ fd
      · simp [tcp_bind_listener, hs, hsf, hm]
      · by_cases h1 : env.fcntl_ok <;> by_cases h2 : env.nodelay_ok <;>
          by_cases hra : env.reuseaddr_ok <;>
          by_cases htr : (l.options &&& LI_O_FOREIGN ≠ 0 ∧
              env.transparent_ok = false ∧ env.freebind_ok = false) <;>
          by_cases hb : env.bind_ok <;> by_cases hl : env.listen_ok <;>
          simp [tcp_bind_listener, hs, hsf, hm, h1, h2, hra, htr, hb, hl] <;>
          decide
  · simp [tcp_bind_listener, hs]

/-- In each return code of `tcp_bind_listener`, the abort bit implies the
fatal bit. -/
lemma tcp_bind_listener_err_abort_imp_fatal (env : BindEnv) (l : Listener) :
    (tcp_bind_listener env l).err.testBit 2 = true →
    (tcp_bind_listener env l).err.testBit 1 = true := by
  have h := tcp_bind_listener_err_mem env l
  simp only [List.mem_cons, List.not_mem_nil, or_false] at h
  rcases h with h | h | h | h | h <;> rw [h] <;> decide

/-- Provided the accumulator's abort bit implies its fatal bit, the loop of
`tcp_bind_listeners` never breaks: every listener of the list is
attempted. -/
lemma tcp_bind_listeners_from_no_break (xs : List (BindEnv × Listener)) :
    ∀ err : Nat, (err.testBit 2 = true → err.testBit 1 = true) →
      (tcp_bind_listeners_from err xs).2 = xs.length := by
  induction xs with
  | nil => intro err _; rfl
  | cons x rest ih =>
    intro err hinv
    have hx := tcp_bind_listener_err_abort_imp_fatal x.1 x.2
    have hinv2 := abort_imp_fatal_or err (tcp_bind_listener x.1 x.2).err hinv hx
    have hne : ¬ ((err ||| (tcp_bind_listener x.1 x.2).err) &&& ERR_CODE = ERR_ABORT) := by
      intro hEq
      have hCode : ERR_CODE = 7 := rfl
      have t2 : (err ||| (tcp_bind_listener x.1 x.2).err).testBit 2 = true := by
        have h := congrArg (fun n => n.testBit 2) hEq
        simp only [hCode] at h
        rwa [Nat.testBit_land, show Nat.testBit 7 2 = true from rfl,
          show Nat.testBit ERR_ABORT 2 = true from rfl, Bool.and_true] at h
      have t1 : (err ||| (tcp_bind_listener x.1 x.2).err).testBit 1 = false := by
        have h := congrArg (fun n => n.testBit 1) hEq
        simp only [hCode] at h
        rwa [Nat.testBit_land, show Nat.testBit 7 1 = true from rfl,
          show Nat.testBit ERR_ABORT 1 = false from rfl, Bool.and_true] at h
      rw [hinv2 t2] at t1
      exact Bool.noConfusion t1
    simp only [tcp_bind_listeners_from, hne, if_false, reduceIte]
    rw [ih _ hinv2]
    simp

/-- C1, evaluated at the failing input: the first listener fails with the
abort flag set, yet the second listener is still attempted (2 attempts, not
1) — and in general the loop attempts every listener of every batch, because
`(err & ERR_CODE) == ERR_ABORT` requires the fatal bit to be clear while
every abort-flagged return also carries the fatal bit. -/
theorem tcp_bind_listeners_abort_does_not_stop :
    ((tcp_bind_listener envAbort lAssigned).err &&& ERR_ABORT ≠ 0) ∧
    (tcp_bind_listeners [(envAbort, lAssigned), (envOk, lAssigned)] =
      (ERR_FATAL ||| ERR_ABORT ||| ERR_ALERT, 2)) ∧
    (∀ xs : List (BindEnv × Listener), (tcp_bind_listeners xs).2 = xs.length) :=
  ⟨by decide, by decide,
    fun xs => tcp_bind_listeners_from_no_break xs ERR_NONE (by decide)⟩

/-- C6: with a non-zero mode and a provided remote address, the return code
of `tcpv4_bind_socket` is always 0, 1 or 2; it is 1 exactly when the direct
transparent strategy did not take and the bind to the local address failed,
and 2 exactly when either the direct strategy took but the bind to the
constructed foreign address failed, or no strategy was available (direct
refused or disabled, and the cttproxy fallback failing after a successful
local bind) — so local-bind failure and foreign failure are always
distinguishable. -/
theorem tcpv4_bind_socket_code_classification (env : ForeignEnv) (w : Bool)
    (flags : Nat) (loc : SockAddrIn) (r : SockAddrIn) :
    (flags = 0 →
      (tcpv4_bind_socket env w flags loc (some r)).code =
        some (plainLocalBind env loc)) ∧
    (flags ≠ 0 →
      ((tcpv4_bind_socket env w flags loc (some r)).code = some 0 ∨
       (tcpv4_bind_socket env w flags loc (some r)).code = some 1 ∨
       (tcpv4_bind_socket env w flags loc (some r)).code = some 2) ∧
      ((tcpv4_bind_socket env w flags loc (some r)).code = some 1 ↔
        ((w && (env.transparent_ok || env.freebind_ok)) = false ∧
          env.bind_ok loc = false)) ∧
      ((tcpv4_bind_socket env w flags loc (some r)).code = some 2 ↔
        (((w && (env.transparent_ok || env.freebind_ok)) = true ∧
           env.bind_ok (mkForeignAddr flags r) = false) ∨
         ((w && (env.transparent_ok || env.freebind_ok)) = false ∧
           env.bind_ok loc = true ∧
           (env.cttproxy1_ok && env.cttproxy2_ok) = false)))) := by
  constructor
  · rintro rfl
    cases hb : env.bind_ok loc <;>
      simp [tcpv4_bind_socket, plainLocalBind, hb]
  · intro hf
    have hft : (flags != 0) = true := by simpa using hf
    cases w <;> cases ht : env.transparent_ok <;> cases hfb : env.freebind_ok <;>
      cases hb1 : env.bind_ok (mkForeignAddr flags r) <;>
      cases hb2 : env.bind_ok loc <;>
      cases hc1 : env.cttproxy1_ok <;> cases hc2 : env.cttproxy2_ok <;>
      simp [tcpv4_bind_socket, hf, hft, hb1, hb2, hc1, hc2, ht, hfb]

/-- Witness for C6: mode 3 with every foreign strategy unavailable returns
the foreign-specific code 2 (distinct from the local-bind code 1). -/
theorem tcpv4_bind_socket_code_classification_witness :
    (tcpv4_bind_socket envForeignFail true 3 addrLoc (some addrRem)).code = some 2 :=
  ((tcpv4_bind_socket_code_classification envForeignFail true 3 addrLoc
      addrRem).2 (by decide)).2.2.mpr (Or.inr ⟨rfl, rfl, rfl⟩)

/-- In every branch of `tcpv4_bind_socket`, the returned flag is the input
flag, cleared exactly when the call attempted the stage-one strategy and
both of its setsockopts were refused. -/
lemma tcpv4_bind_socket_transp_working_eq (env : ForeignEnv) (w : Bool)
    (flags : Nat) (loc : SockAddrIn) (remote : Option SockAddrIn) :
    (tcpv4_bind_socket env w flags loc remote).transp_working =
      (if ((flags != 0) && w) && !env.transparent_ok && !env.freebind_ok
        then false else w) := by
  unfold tcpv4_bind_socket
  rcases remote with _ | r <;> by_cases h0 : flags = 0 <;>
    simp [h0] <;> split_ifs <;> simp_all

/-- In every branch of `tcpv4_bind_socket`, the stage-one strategy is
attempted exactly when foreign binding was requested and the flag was still
set. -/
lemma tcpv4_bind_socket_triedTransp_eq (env : ForeignEnv) (w : Bool)
    (flags : Nat) (loc : SockAddrIn) (remote : Option SockAddrIn) :
    (tcpv4_bind_socket env w flags loc remote).triedTransp =
      ((flags != 0) && w) := by
  unfold tcpv4_bind_socket
  rcases remote with _ | r <;> by_cases h0 : flags = 0 <;>
    simp [h0] <;> split_ifs <;> simp_all

/-- A call entered with the flag cleared leaves it cleared and does not
attempt the stage-one strategy. -/
lemma tcpv4_bind_socket_flag_false (env : ForeignEnv) (flags : Nat)
    (loc : SockAddrIn) (remote : Option SockAddrIn) :
    (tcpv4_bind_socket env false flags loc remote).transp_working = false ∧
    (tcpv4_bind_socket env false flags loc remote).triedTransp = false := by
  rw [tcpv4_bind_socket_transp_working_eq, tcpv4_bind_socket_triedTransp_eq]
  simp

/-- Once the flag is cleared, a whole trace of calls keeps it cleared and
never attempts the stage-one strategy. -/
lemma runForeignCalls_false (ds : List ForeignCall) :
    (runForeignCalls false ds).1 = false ∧
    ((runForeignCalls false ds).2.all fun o => !o.triedTransp) = true := by
  induction ds with
  | nil => exact ⟨rfl, rfl⟩
  | cons c cs ih =>
    have h := tcpv4_bind_socket_flag_false c.env c.flags c.loc c.remote
    simp [runForeignCalls, h.1, h.2, ih.1, ih.2]

/-- C8: the transparent-bind capability flag starts enabled; a call entered
with it cleared leaves it cleared and never attempts the direct strategy
(never reset); a call can only clear it by observing both stage-one
setsockopts refused while foreign binding was requested (cleared at most
once, upon first observed refusal); and once any prefix of a trace has
cleared it, no call of the rest of the trace ever attempts the direct
strategy again. -/
theorem ip_transp_working_lifecycle :
    ip_transp_working_init = true ∧
    (∀ (env : ForeignEnv) (flags : Nat) (loc : SockAddrIn)
        (remote : Option SockAddrIn),
      (tcpv4_bind_socket env false flags loc remote).transp_working = false ∧
      (tcpv4_bind_socket env false flags loc remote).triedTransp = false) ∧
    (∀ (env : ForeignEnv) (w : Bool) (flags : Nat) (loc : SockAddrIn)
        (remote : Option SockAddrIn),
      (tcpv4_bind_socket env w flags loc remote).transp_working = false →
        w = false ∨
        (flags ≠ 0 ∧ w = true ∧ env.transparent_ok = false ∧
          env.freebind_ok = false)) ∧
    (∀ cs ds : List ForeignCall, transpFlagAfter true cs = false →
      ((runForeignCalls (transpFlagAfter true cs) ds).2.all
          fun o => !o.triedTransp) = true) := by
  refine ⟨rfl, ?_, ?_, ?_⟩
  · exact tcpv4_bind_socket_flag_false
  · intro env w flags loc remote h
    rw [tcpv4_bind_socket_transp_working_eq] at h
    cases w
    · exact Or.inl rfl
    · right
      by_cases hc : (((flags != 0) && true) && !env.transparent_ok &&
          !env.freebind_ok) = true
      · simp only [Bool.and_eq_true, Bool.not_eq_true', bne_iff_ne, ne_eq] at hc
        exact ⟨hc.1.1.1, rfl, hc.1.2, hc.2⟩
      · rw [if_neg (by simpa using hc)] at h
        exact absurd h (by simp)
  · intro cs ds h
    rw [h]
    exact (runForeignCalls_false ds).2

/-- Witness for C8: a trace whose first call gets the stage-one strategy
refused clears the flag, and a subsequent trace never attempts the strategy
again. -/
theorem ip_transp_working_lifecycle_witness :
    transpFlagAfter true [⟨envForeignFail, 3, addrLoc, some addrRem⟩] = false ∧
    ((runForeignCalls
        (transpFlagAfter true [⟨envForeignFail, 3, addrLoc, some addrRem⟩])
        [⟨envForeignFail, 3, addrLoc, some addrRem⟩]).2.all
      fun o => !o.triedTransp) = true :=
  ⟨rfl, ip_transp_working_lifecycle.2.2.2
    [⟨envForeignFail, 3, addrLoc, some addrRem⟩]
    [⟨envForeignFail, 3, addrLoc, some addrRem⟩] rfl⟩

/-- One add-listener call preserves the registry invariant: the state guard
only ever appends a listener still in `LI_INIT`, which therefore is in
neither registry yet, and moves it out of `LI_INIT` in the same step. -/
lemma RegInv_add (s : RegState) (f : Fam) (id : Nat) (h : RegInv s) :
    RegInv (add_listener f s id) := by
  by_cases hst : s.liState id = LiState.LI_INIT
  case neg =>
    cases f <;>
      simp only [add_listener, tcpv4_add_listener, tcpv6_add_listener, hst,
        ne_eq, not_false_eq_true, if_true, ite_true, reduceIte] <;>
      exact h
  case pos =>
    have hid : id ∉ s.v4_listeners ++ s.v6_listeners :=
      fun hmem => (h.2 id hmem) hst
    have h4 : id ∉ s.v4_listeners :=
      fun hm => hid (List.mem_append.mpr (Or.inl hm))
    have h6 : id ∉ s.v6_listeners :=
      fun hm => hid (List.mem_append.mpr (Or.inr hm))
    cases f <;>
      simp only [add_listener, tcpv4_add_listener, tcpv6_add_listener, hst,
        ne_eq, not_true_eq_false, if_false, ite_false, reduceIte] <;>
      constructor
    · intro j
      by_cases hj : j = id
      · subst hj
        simp [List.count_append, List.count_eq_zero.mpr h4,
          List.count_eq_zero.mpr h6]
      · have hcount := h.1 j
        simp only [List.count_append] at hcount ⊢
        simp [List.count_cons, hj]
        omega
    · intro j hmem
      by_cases hj : j = id
      · subst hj; simp
      · have hmem2 : j ∈ s.v4_listeners ++ s.v6_listeners := by
          rcases List.mem_append.mp hmem with hm | hm
          · rcases List.mem_append.mp hm with hm2 | hm2
            · exact List.mem_append.mpr (Or.inl hm2)
            · simp at hm2; exact absurd hm2 hj
          · exact List.mem_append.mpr (Or.inr hm)
        have := h.2 j hmem2
        simpa [hj] using this
    · intro j
      by_cases hj : j = id
      · subst hj
        simp [List.count_append, List.count_eq_zero.mpr h4,
          List.count_eq_zero.mpr h6]
      · have hcount := h.1 j
        simp only [List.count_append] at hcount ⊢
        simp [List.count_cons, hj]
        omega
    · intro j hmem
      by_cases hj : j = id
      · subst hj; simp
      · have hmem2 : j ∈ s.v4_listeners ++ s.v6_listeners := by
          rcases List.mem_append.mp hmem with hm | hm
          · exact List.mem_append.mpr (Or.inl hm)
          · rcases List.mem_append.mp hm with hm2 | hm2
            · exact List.mem_append.mpr (Or.inr hm2)
            · simp at hm2; exact absurd hm2 hj
        have := h.2 j hmem2
        simpa [hj] using this

/-- The registry invariant is preserved by every call sequence. -/
lemma RegInv_runAdds (s : RegState) (cs : List (Fam × Nat)) (h : RegInv s) :
    RegInv (runAdds s cs) := by
  induction cs generalizing s with
  | nil => exact h
  | cons c cs ih => exact ih _ (RegInv_add s c.1 c.2 h)

/-- C7: an add-listener call is a complete no-op unless the listener is in
`LI_INIT` state; when it is, the call advances it to `LI_ASSIGNED`, points
it at the chosen family, appends it to that family's insertion-ordered
collection and increments that family's live count by exactly one, leaving
the other family untouched; a repeated call on the same listener (through
either family) changes nothing; and across any call sequence a listener
appears at most once across the two registries. -/
theorem add_listener_state_guard (f f2 : Fam) (s : RegState) (id : Nat)
    (cs : List (Fam × Nat)) :
    (s.liState id ≠ LiState.LI_INIT → add_listener f s id = s) ∧
    (s.liState id = LiState.LI_INIT →
      (add_listener f s id).liState id = LiState.LI_ASSIGNED ∧
      (add_listener f s id).protoOf id = some f ∧
      famList f (add_listener f s id) = famList f s ++ [id] ∧
      famNb f (add_listener f s id) = famNb f s + 1 ∧
      famList (otherFam f) (add_listener f s id) = famList (otherFam f) s ∧
      famNb (otherFam f) (add_listener f s id) = famNb (otherFam f) s) ∧
    (add_listener f2 (add_listener f s id) id = add_listener f s id) ∧
    (RegInv s → RegInv (runAdds s cs)) := by
  refine ⟨?_, ?_, ?_, RegInv_runAdds s cs⟩
  · intro hst
    cases f <;> simp [add_listener, tcpv4_add_listener, tcpv6_add_listener, hst]
  · intro hst
    cases f <;>
      simp [add_listener, tcpv4_add_listener, tcpv6_add_listener, hst,
        famList, famNb, otherFam]
  · by_cases hst : s.liState id = LiState.LI_INIT
    · cases f <;> cases f2 <;>
        simp [add_listener, tcpv4_add_listener, tcpv6_add_listener, hst]
    · cases f <;> cases f2 <;>
        simp [add_listener, tcpv4_add_listener, tcpv6_add_listener, hst]

/-- Witness for C7: adding listener 7 to the empty tcpv4 registry assigns
it, appends it, bumps the count to 1, and preserves the invariant. -/
theorem add_listener_state_guard_witness :
    regEmpty.liState 7 = LiState.LI_INIT ∧
    (add_listener Fam.v4 regEmpty 7).liState 7 = LiState.LI_ASSIGNED ∧
    famList Fam.v4 (add_listener Fam.v4 regEmpty 7) = [7] ∧
    famNb Fam.v4 (add_listener Fam.v4 regEmpty 7) = 1 ∧
    RegInv (runAdds regEmpty [(Fam.v4, 7), (Fam.v4, 7)]) :=
  ⟨rfl,
    ((add_listener_state_guard Fam.v4 Fam.v4 regEmpty 7 []).2.1 rfl).1,
    by simpa using
      ((add_listener_state_guard Fam.v4 Fam.v4 regEmpty 7 []).2.1 rfl).2.2.1,
    by simpa using
      ((add_listener_state_guard Fam.v4 Fam.v4 regEmpty 7 []).2.1 rfl).2.2.2.1,
    (add_listener_state_guard Fam.v4 Fam.v4 regEmpty 7
        [(Fam.v4, 7), (Fam.v4, 7)]).2.2.2
      (by constructor <;> intro id <;> simp [regEmpty])⟩

/-- C9: the tcp-request keyword parser is tri-state: it returns `-1` exactly
on the fatal configuration errors (each leaving a diagnostic in the buffer
and the proxy untouched), `1` exactly on the non-fatal warnings (diagnostic
written, directive ignored), and `0` otherwise, in which case no diagnostic
is produced and either a parsed inspect-delay was stored or a content rule
was appended. -/
theorem tcp_parse_tcp_req_tristate (env : ParseEnv) (args : List String)
    (d : Bool) (px : Proxy) :
    ((tcp_parse_tcp_req env args d px).1 = -1 ∨
     (tcp_parse_tcp_req env args d px).1 = 0 ∨
     (tcp_parse_tcp_req env args d px).1 = 1) ∧
    ((tcp_parse_tcp_req env args d px).1 = -1 ↔ fatalCause env args d px) ∧
    ((tcp_parse_tcp_req env args d px).1 = 1 ↔ warnCause env args d px) ∧
    ((tcp_parse_tcp_req env args d px).1 = -1 ∨
        (tcp_parse_tcp_req env args d px).1 = 1 →
      (tcp_parse_tcp_req env args d px).2.2.isSome = true ∧
      (tcp_parse_tcp_req env args d px).2.1 = px) ∧
    ((tcp_parse_tcp_req env args d px).1 = 0 →
      (tcp_parse_tcp_req env args d px).2.2 = none ∧
      ((∃ v, env.parse_time_err (arg args 2) = some v ∧
          (tcp_parse_tcp_req env args d px).2.1 =
            { px with inspect_delay := v }) ∨
       (∃ rule, (tcp_parse_tcp_req env args d px).2.1 =
          { px with inspect_rules := px.inspect_rules ++ [rule] }))) := by
  by_cases h1 : arg args 1 = ""
  · simp [tcp_parse_tcp_req, fatalCause, warnCause, h1]
  · by_cases h2 : arg args 1 = "inspect-delay"
    · cases d
      · by_cases hcap : px.cap_fe
        · by_cases h3 : arg args 2 = ""
          · simp [tcp_parse_tcp_req, fatalCause, warnCause, h1, h2, hcap, h3]
          · rcases hpt : env.parse_time_err (arg args 2) with _ | v
            · simp [tcp_parse_tcp_req, fatalCause, warnCause, h1, h2, hcap,
                h3, hpt]
            · by_cases hdl : px.inspect_delay = 0
              · simp [tcp_parse_tcp_req, fatalCause, warnCause, h1, h2, hcap,
                  h3, hpt, hdl]
              · simp [tcp_parse_tcp_req, fatalCause, warnCause, h1, h2, hcap,
                  h3, hpt, hdl]
        · simp [tcp_parse_tcp_req, fatalCause, warnCause, h1, h2, hcap]
      · simp [tcp_parse_tcp_req, fatalCause, warnCause, h1, h2]
    · by_cases h4 : arg args 1 = "content"
      · cases d
        · by_cases ha : arg args 2 = "accept"
          · by_cases hif : arg args 3 = "if"
            · rcases hc : env.parse_acl_cond (args.drop 4)
                  CondPol.ACL_COND_IF with _ | c
              · simp [tcp_parse_tcp_req, fatalCause, warnCause, polOf, h1, h2,
                  h4, ha, hif, hc]
              · simp [tcp_parse_tcp_req, fatalCause, warnCause, polOf, h1, h2,
                  h4, ha, hif, hc]
            · by_cases hun : arg args 3 = "unless"
              · rcases hc : env.parse_acl_cond (args.drop 4)
                    CondPol.ACL_COND_UNLESS with _ | c
                · simp [tcp_parse_tcp_req, fatalCause, warnCause, polOf, h1,
                    h2, h4, ha, hif, hun, hc]
                · simp [tcp_parse_tcp_req, fatalCause, warnCause, polOf, h1,
                    h2, h4, ha, hif, hun, hc]
              · simp [tcp_parse_tcp_req, fatalCause, warnCause, polOf, h1, h2,
                  h4, ha, hif, hun]
          · by_cases hr : arg args 2 = "reject"
            · by_cases hif : arg args 3 = "if"
              · rcases hc : env.parse_acl_cond (args.drop 4)
                    CondPol.ACL_COND_IF with _ | c
                · simp [tcp_parse_tcp_req, fatalCause, warnCause, polOf, h1,
                    h2, h4, ha, hr, hif, hc]
                · simp [tcp_parse_tcp_req, fatalCause, warnCause, polOf, h1,
                    h2, h4, ha, hr, hif, hc]
              · by_cases hun : arg args 3 = "unless"
                · rcases hc : env.parse_acl_cond (args.drop 4)
                      CondPol.ACL_COND_UNLESS with _ | c
                  · simp [tcp_parse_tcp_req, fatalCause, warnCause, polOf, h1,
                      h2, h4, ha, hr, hif, hun, hc]
                  · simp [tcp_parse_tcp_req, fatalCause, warnCause, polOf, h1,
                      h2, h4, ha, hr, hif, hun, hc]
                · simp [tcp_parse_tcp_req, fatalCause, warnCause, polOf, h1,
                    h2, h4, ha, hr, hif, hun]
            · simp [tcp_parse_tcp_req, fatalCause, warnCause, h1, h2, h4,
                ha, hr]
        · simp [tcp_parse_tcp_req, fatalCause, warnCause, h1, h2, h4]
      · simp [tcp_parse_tcp_req, fatalCause, warnCause, h1, h2, h4]

/-- Witness for C9: `inspect-delay` inside a defaults section is a fatal
error (`-1`). -/
theorem tcp_parse_tcp_req_tristate_witness :
    (tcp_parse_tcp_req env0 argsDelay true px0).1 = -1 :=
  (tcp_parse_tcp_req_tristate env0 argsDelay true px0).2.1.mpr
    (Or.inr (Or.inl ⟨rfl, rfl⟩))

/-- C10: outside a defaults section, a content rule whose action token is
`accept` or `reject` followed by a token that is neither `if` nor `unless`
parses successfully (`0`), appends an unguarded rule (no condition), writes
no diagnostic, and silently ignores the trailing tokens. -/
theorem tcp_parse_tcp_req_content_trailing_ignored (env : ParseEnv)
    (args : List String) (px : Proxy)
    (h2 : arg args 1 = "content")
    (ha : arg args 2 = "accept" ∨ arg args 2 = "reject")
    (h3 : arg args 3 ≠ "if") (h4 : arg args 3 ≠ "unless") :
    tcp_parse_tcp_req env args false px =
      (0, { px with inspect_rules := px.inspect_rules ++
        [{ cond := none,
           action := if arg args 2 = "accept" then TcpAct.TCP_ACT_ACCEPT
                     else TcpAct.TCP_ACT_REJECT }] }, none) := by
  rcases ha with ha | ha <;>
    simp [tcp_parse_tcp_req, h2, ha, h3, h4]

/-- Witness for C10: `tcp-request content accept foo bar` outside defaults
returns 0 and appends an unconditional accept rule. -/
theorem tcp_parse_tcp_req_content_trailing_ignored_witness :
    arg argsContent 1 = "content" ∧
    (arg argsContent 2 = "accept" ∨ arg argsContent 2 = "reject") ∧
    arg argsContent 3 ≠ "if" ∧
    arg argsContent 3 ≠ "unless" ∧
    tcp_parse_tcp_req env0 argsContent false px0 =
      (0, { px0 with inspect_rules := px0.inspect_rules ++
        [{ cond := none,
           action := if arg argsContent 2 = "accept" then TcpAct.TCP_ACT_ACCEPT
                     else TcpAct.TCP_ACT_REJECT }] }, none) :=
  ⟨rfl, Or.inl rfl, by decide, by decide,
    tcp_parse_tcp_req_content_trailing_ignored env0 argsContent px0
      rfl (Or.inl rfl) (by decide) (by decide)⟩

end ProtoTcp
